import Mathlib

/-
Verification of the Celestron SCT focuser driver
(src/libindi/drivers/focuser/celestron.cpp) against its design
specification.

The driver talks to the device over a synchronous request/reply channel.
We embed each channel exchange as an explicit argument: a query that can
fail is an Option carrying the reply bytes (none is a channel failure),
and a blind send is a Bool carrying whether the send succeeded.  Reply
bytes are Nat values in 0..255; byte shifts and additions from the C++
are translated literally.  Logging and property publishing (LOG_*,
IDSetNumber, SetTimer) are I/O with no effect on driver state and are
omitted.
-/

namespace CelestronSCT

/-- INDI property light states used by the driver (IPState in the source). -/
inductive IPState where
  | Idle
  | Ok
  | Busy
  | Alert
deriving DecidableEq, Repr

/-- Focuser motion direction, as in the INDI FocusDirection enumeration. -/
inductive FocusDirection where
  | Inward
  | Outward
deriving DecidableEq, Repr

/-- Device commands the driver dispatches to the focuser, with their payload
bytes: MC_GOTO_FAST (absolute goto) and MC_MOVE_POS (move at a given rate,
used with rate 0 as the stop command). -/
inductive Command where
  | gotoFast (payload : List Nat)
  | movePos (payload : List Nat)
deriving DecidableEq, Repr

/-- The mutable driver state: the fields of the INDI number vectors that
celestron.cpp reads and writes.  Position values are integral ticks; the
C++ stores them in doubles, whose arithmetic is exact in the tick range,
so they are embedded as Int. -/
structure FocuserState where
  focusAbsPosValue : Int
  focusAbsPosMin : Int
  focusAbsPosMax : Int
  focusAbsPosS : IPState
  focusRelPosS : IPState
  focusMaxPosValue : Int
  focusMaxPosS : IPState
  focusMinPosValue : Int
  focusMinPosS : IPState
deriving DecidableEq, Repr

/-- State after initProperties: absolute range 0..60000, value 0, max
position 60000, min position 0, all vectors IPS_IDLE. -/
def initialState : FocuserState :=
  { focusAbsPosValue := 0
    focusAbsPosMin := 0
    focusAbsPosMax := 60000
    focusAbsPosS := IPState.Idle
    focusRelPosS := IPState.Idle
    focusMaxPosValue := 60000
    focusMaxPosS := IPState.Idle
    focusMinPosValue := 0
    focusMinPosS := IPState.Idle }

/-- Ack: sends GET_VER and returns false only when the channel exchange
fails; every received reply is accepted (the reply length merely selects
which log line is printed, so it does not affect the returned value). -/
def Ack (reply : Option (List Nat)) : Bool :=
  match reply with
  | none => false
  | some _ => true

/-- Three byte big-endian decode, as in readPosition:
(reply[0] << 16) + (reply[1] << 8) + reply[2]. -/
def decode3 (b0 b1 b2 : Nat) : Nat :=
  b0 * 65536 + b1 * 256 + b2

/-- readPosition: on channel failure returns false with the state
untouched; on success stores the 3-byte big-endian position into
FocusAbsPosN[0].value and sets the vector state to IPS_OK. -/
def readPosition (reply : Option (Nat × Nat × Nat)) (st : FocuserState) :
    FocuserState × Bool :=
  match reply with
  | none => (st, false)
  | some (b0, b1, b2) =>
    ({ st with
        focusAbsPosValue := ((decode3 b0 b1 b2 : Nat) : Int)
        focusAbsPosS := IPState.Ok }, true)

/-- isMoving: sends MC_SLEW_DONE; returns false on channel failure, and
otherwise reports motion in progress exactly when the status byte differs
from 0xFF (reply[0] != 0xFF in the source). -/
def isMoving (reply : Option Nat) : Bool :=
  match reply with
  | none => false
  | some b => b != 255

/-- Four byte big-endian decode, as in readLimits:
(reply[i] << 24) + (reply[i+1] << 16) + (reply[i+2] << 8) + reply[i+3]. -/
def decode4 (b0 b1 b2 b3 : Nat) : Nat :=
  b0 * 16777216 + b1 * 65536 + b2 * 256 + b3

/-- The C++ stores the shifted byte sums into a signed 32-bit int; this is
the value of that int: reduction modulo 2^32 with wrap to negative above
2^31. -/
def toInt32 (n : Nat) : Int :=
  if n % 4294967296 < 2147483648 then ((n % 4294967296 : Nat) : Int)
  else ((n % 4294967296 : Nat) : Int) - 4294967296

/-- readLimits: on channel failure returns false with the state untouched;
on success decodes lo from reply bytes 0..3 and hi from bytes 4..7, sets
the absolute position range to lo..hi, the max position value to hi and
the min position value to lo, marking the vectors IPS_OK. -/
def readLimits
    (reply : Option (Nat × Nat × Nat × Nat × Nat × Nat × Nat × Nat))
    (st : FocuserState) : FocuserState × Bool :=
  match reply with
  | none => (st, false)
  | some (b0, b1, b2, b3, b4, b5, b6, b7) =>
    let lo := toInt32 (decode4 b0 b1 b2 b3)
    let hi := toInt32 (decode4 b4 b5 b6 b7)
    ({ st with
        focusAbsPosMax := hi
        focusAbsPosMin := lo
        focusAbsPosS := IPState.Ok
        focusMaxPosValue := hi
        focusMaxPosS := IPState.Ok
        focusMinPosValue := lo
        focusMinPosS := IPState.Ok }, true)

/-- The goto payload built by MoveAbsFocuser: the three bytes
(targetTicks >> 16) & 0xFF, (targetTicks >> 8) & 0xFF, targetTicks & 0xFF. -/
def moveAbsPayload (targetTicks : Nat) : List Nat :=
  [targetTicks / 65536 % 256, targetTicks / 256 % 256, targetTicks % 256]

/-- Big-endian reading of a 3-byte payload, used to state which target a
dispatched goto command carries. -/
def decodePayload (payload : List Nat) : Nat :=
  match payload with
  | [b0, b1, b2] => decode3 b0 b1 b2
  | _ => 0

/-- Result of a move request: the device commands it dispatched and the
IPState it returns to the framework. -/
structure MoveResult where
  commands : List Command
  result : IPState
deriving DecidableEq, Repr

/-- MoveAbsFocuser: encodes targetTicks into a 3-byte payload, issues one
MC_GOTO_FAST blind command, and returns IPS_ALERT when the send fails and
IPS_BUSY when it succeeds.  It takes no limits and performs no clamping,
and it never returns IPS_OK. -/
def MoveAbsFocuser (sendOk : Bool) (targetTicks : Nat) : MoveResult :=
  { commands := [Command.gotoFast (moveAbsPayload targetTicks)]
    result := if sendOk then IPState.Busy else IPState.Alert }

/-- MoveRelFocuser: newPosition is the current absolute value minus the
tick count for Inward and plus it for Outward, clamped by
max(0, min(FocusAbsPosN[0].max, newPosition)), then passed to
MoveAbsFocuser. -/
def MoveRelFocuser (sendOk : Bool) (st : FocuserState)
    (dir : FocusDirection) (ticks : Nat) : MoveResult :=
  let newPosition : Int :=
    match dir with
    | FocusDirection.Inward => st.focusAbsPosValue - (ticks : Int)
    | FocusDirection.Outward => st.focusAbsPosValue + (ticks : Int)
  let clamped : Int := max 0 (min st.focusAbsPosMax newPosition)
  MoveAbsFocuser sendOk clamped.toNat

/-- Written from the spec wording for claim C5: clamp x to the interval
from lo to hi, compared below with what MoveRelFocuser computes. -/
def specClamp (x lo hi : Int) : Int :=
  max lo (min hi x)

/-- TimerHit: when disconnected only the timer is rearmed.  When
connected, readPosition runs first (on success it overwrites the absolute
value and sets that vector to IPS_OK); then, if the absolute or relative
position vector is IPS_BUSY, the MC_SLEW_DONE status is queried and, when
isMoving is false, both vectors are set to IPS_OK.  The debounced
position publishing and the timer rearm are I/O and do not change this
state. -/
def TimerHit (connected : Bool) (posReply : Option (Nat × Nat × Nat))
    (slewDoneReply : Option Nat) (st : FocuserState) : FocuserState :=
  if !connected then st
  else
    let st1 := (readPosition posReply st).1
    if st1.focusAbsPosS = IPState.Busy ∨ st1.focusRelPosS = IPState.Busy then
      if !isMoving slewDoneReply then
        { st1 with focusAbsPosS := IPState.Ok, focusRelPosS := IPState.Ok }
      else st1
    else st1

/-- AbortFocuser: unconditionally issues one MC_MOVE_POS blind command
with the single payload byte 0 (move at rate zero) and returns whether
the send succeeded.  It touches no driver state itself. -/
def AbortFocuser (sendOk : Bool) : List Command × Bool :=
  ([Command.movePos [0]], sendOk)

/-- Outward-visible controller move state for the abort path: the move
status and the pending target. -/
structure ControllerState where
  moveStatus : IPState
  targetPosition : Option Int
deriving DecidableEq, Repr

/-- Modelled from the spec: the host framework abort handler that invokes
AbortFocuser is repository code outside src (the FocuserInterface caller).
Per the spec, on send success it resets moveStatus to Idle and clears
targetPosition; on send failure it leaves the state alone and reports
failure. -/
def abortMove (sendOk : Bool) (cs : ControllerState) : ControllerState × Bool :=
  let send := AbortFocuser sendOk
  if send.2 then
    ({ moveStatus := IPState.Idle, targetPosition := none }, true)
  else
    (cs, false)

theorem toInt32_of_lt (n : Nat) (h : n < 2147483648) : toInt32 n = (n : Int) := by
  unfold toInt32
  have hm : n % 4294967296 = n := Nat.mod_eq_of_lt (by omega)
  rw [hm, if_pos h]

/-- Claim C1 counterexample: with limits calibrated to lo 500 and hi 55000,
MoveAbsFocuser for target 60000 dispatches a goto whose payload decodes to
60000 itself, not to the clamped value 55000 — the target is not clamped
to the calibrated limits before dispatch (MoveAbsFocuser consults no
limits at all). -/
theorem moveAbs_60000_not_clamped :
    (MoveAbsFocuser true 60000).commands = [Command.gotoFast [0, 234, 96]] ∧
    decodePayload [0, 234, 96] = 60000 ∧ ¬ (60000 ≤ 55000) := by
  refine ⟨rfl, rfl, by decide⟩

/-- Claim C1 amended: MoveAbsFocuser dispatches the requested target
unclamped — for every target representable in the 3-byte payload, the
single goto command it issues carries exactly the requested target,
independent of any calibrated limits. -/
theorem moveAbs_dispatches_unclamped (sendOk : Bool) (t : Nat)
    (h : t < 16777216) :
    (MoveAbsFocuser sendOk t).commands = [Command.gotoFast (moveAbsPayload t)] ∧
    decodePayload (moveAbsPayload t) = t := by
  refine ⟨rfl, ?_⟩
  simp only [moveAbsPayload, decodePayload, decode3]
  omega

theorem moveAbs_dispatches_unclamped_witness :
    (MoveAbsFocuser true 60000).commands = [Command.gotoFast (moveAbsPayload 60000)] ∧
    decodePayload (moveAbsPayload 60000) = 60000 :=
  moveAbs_dispatches_unclamped true 60000 (by decide)

/-- Claim C2 evaluated at the failing input: on a poll tick where the
absolute position vector is IPS_BUSY and both channel queries fail
(readPosition and the MC_SLEW_DONE status query), TimerHit clears the
busy state to IPS_OK — the channel failure is decoded as motion complete,
contrary to the claim that Busy must be retained and the poll retried. -/
theorem timerHit_channel_fail_clears_busy :
    (TimerHit true none none
        { initialState with focusAbsPosS := IPState.Busy }).focusAbsPosS
      = IPState.Ok ∧
    ({ initialState with focusAbsPosS := IPState.Busy } :
        FocuserState).focusAbsPosS = IPState.Busy := by
  refine ⟨by decide, rfl⟩

/-- Claim C3 evaluated at a direction reversal: after an outward move left
the position at 55000 (limits 500..55000), a relative inward move of 1000
issues exactly one command — a direct MC_GOTO_FAST at the final target
54000 — with no backlash overshoot phase; no backlash sub-state exists in
the driver. -/
theorem reversal_move_single_phase :
    (MoveRelFocuser true
        { initialState with
            focusAbsPosValue := 55000
            focusAbsPosMin := 500
            focusAbsPosMax := 55000 }
        FocusDirection.Inward 1000).commands
      = [Command.gotoFast (moveAbsPayload 54000)] ∧
    decodePayload (moveAbsPayload 54000) = 54000 := by
  refine ⟨by decide, by decide⟩

/-- Claim C4: when abortMove runs while the move status is Busy and the
stop command sends successfully, the controller state becomes Idle with
the target cleared, for every prior controller state (hence independent
of any pending or stale poll result). -/
theorem abortMove_busy_resets (cs : ControllerState)
    (h : cs.moveStatus = IPState.Busy) :
    (abortMove true cs).1.moveStatus = IPState.Idle ∧
    (abortMove true cs).1.targetPosition = none ∧
    (abortMove true cs).2 = true := by
  exact ⟨rfl, rfl, rfl⟩

theorem abortMove_busy_resets_witness :
    (abortMove true
        { moveStatus := IPState.Busy, targetPosition := some 30000 }).1.moveStatus
      = IPState.Idle ∧
    (abortMove true
        { moveStatus := IPState.Busy, targetPosition := some 30000 }).1.targetPosition
      = none ∧
    (abortMove true
        { moveStatus := IPState.Busy, targetPosition := some 30000 }).2 = true :=
  abortMove_busy_resets
    { moveStatus := IPState.Busy, targetPosition := some 30000 } rfl

/-- Claim C5: for every state, send outcome and amount, the relative move
behaves identically to the absolute move of the clamped target — Inward
moves to clamp(p - n, 0, max) and Outward to clamp(p + n, 0, max), with 0
as the floor of the clamp. -/
theorem moveRel_eq_moveAbs_clamp (sendOk : Bool) (st : FocuserState) (n : Nat) :
    MoveRelFocuser sendOk st FocusDirection.Inward n
      = MoveAbsFocuser sendOk
          (specClamp (st.focusAbsPosValue - (n : Int)) 0 st.focusAbsPosMax).toNat ∧
    MoveRelFocuser sendOk st FocusDirection.Outward n
      = MoveAbsFocuser sendOk
          (specClamp (st.focusAbsPosValue + (n : Int)) 0 st.focusAbsPosMax).toNat := by
  exact ⟨rfl, rfl⟩

/-- Claim C6: the status byte is decoded with inverted sense — byte 0xFF
means no motion in progress, and every other byte value means still
moving. -/
theorem isMoving_decode (b : Nat) (h : b ≠ 255) :
    isMoving (some 255) = false ∧ isMoving (some b) = true := by
  refine ⟨rfl, ?_⟩
  simp only [isMoving, bne_iff_ne, ne_eq]
  exact h

theorem isMoving_decode_witness :
    isMoving (some 255) = false ∧ isMoving (some 1) = true :=
  isMoving_decode 1 (by decide)

/-- Claim C7: a failed limits query leaves the whole state untouched
(whatever it was, including the initial defaults), and a successful one
sets the min limit from the first 4-byte big-endian quantity and the max
limit from the second, for all quantities representable in the signed
32-bit int the source stores them in. -/
theorem readLimits_spec (st : FocuserState) (b0 b1 b2 b3 b4 b5 b6 b7 : Nat)
    (h1 : decode4 b0 b1 b2 b3 < 2147483648)
    (h2 : decode4 b4 b5 b6 b7 < 2147483648) :
    readLimits none st = (st, false) ∧
    (readLimits (some (b0, b1, b2, b3, b4, b5, b6, b7)) st).1.focusAbsPosMin
      = ((decode4 b0 b1 b2 b3 : Nat) : Int) ∧
    (readLimits (some (b0, b1, b2, b3, b4, b5, b6, b7)) st).1.focusMinPosValue
      = ((decode4 b0 b1 b2 b3 : Nat) : Int) ∧
    (readLimits (some (b0, b1, b2, b3, b4, b5, b6, b7)) st).1.focusAbsPosMax
      = ((decode4 b4 b5 b6 b7 : Nat) : Int) ∧
    (readLimits (some (b0, b1, b2, b3, b4, b5, b6, b7)) st).1.focusMaxPosValue
      = ((decode4 b4 b5 b6 b7 : Nat) : Int) ∧
    (readLimits (some (b0, b1, b2, b3, b4, b5, b6, b7)) st).2 = true := by
  refine ⟨rfl, ?_, ?_, ?_, ?_, rfl⟩ <;>
    simp only [readLimits, toInt32_of_lt _ h1, toInt32_of_lt _ h2]

theorem readLimits_spec_witness :
    readLimits none initialState = (initialState, false) ∧
    (readLimits (some (0, 0, 1, 244, 0, 0, 214, 216)) initialState).1.focusAbsPosMin
      = ((decode4 0 0 1 244 : Nat) : Int) ∧
    (readLimits (some (0, 0, 1, 244, 0, 0, 214, 216)) initialState).1.focusMinPosValue
      = ((decode4 0 0 1 244 : Nat) : Int) ∧
    (readLimits (some (0, 0, 1, 244, 0, 0, 214, 216)) initialState).1.focusAbsPosMax
      = ((decode4 0 0 214 216 : Nat) : Int) ∧
    (readLimits (some (0, 0, 1, 244, 0, 0, 214, 216)) initialState).1.focusMaxPosValue
      = ((decode4 0 0 214 216 : Nat) : Int) ∧
    (readLimits (some (0, 0, 1, 244, 0, 0, 214, 216)) initialState).2 = true :=
  readLimits_spec initialState 0 0 1 244 0 0 214 216 (by decide) (by decide)

/-- Claim C8 counterexample: a 3-byte firmware reply — length neither 2
nor 4 — is accepted by Ack as a successful handshake, contrary to the
claim that such a reply must not succeed. -/
theorem ack_accepts_3_byte_reply :
    Ack (some [1, 2, 3]) = true ∧
    ([1, 2, 3] : List Nat).length ≠ 2 ∧
    ([1, 2, 3] : List Nat).length ≠ 4 := by
  refine ⟨rfl, by decide, by decide⟩

/-- Claim C8 amended: Ack treats every received reply, of any length, as a
successful handshake; only a channel failure makes the handshake fail. -/
theorem ack_any_reply (reply : List Nat) :
    Ack (some reply) = true ∧ Ack none = false := by
  exact ⟨rfl, rfl⟩

/-- Claim C9: readPosition decodes the reply as a 3-byte big-endian
quantity; a channel failure returns false and leaves the whole state
(in particular the cached position) untouched, and a success overwrites
the absolute position value with the decoded quantity and returns true. -/
theorem readPosition_spec (st : FocuserState) (b0 b1 b2 : Nat) :
    readPosition none st = (st, false) ∧
    (readPosition (some (b0, b1, b2)) st).1.focusAbsPosValue
      = ((decode3 b0 b1 b2 : Nat) : Int) ∧
    (readPosition (some (b0, b1, b2)) st).2 = true := by
  exact ⟨rfl, rfl, rfl⟩

/-- Claim C10: for every target, MoveAbsFocuser returns IPS_BUSY when the
send succeeds — also when the target equals the current position — and
IPS_ALERT when it fails; the IPS_OK (already at target) result is never
produced. -/
theorem moveAbs_always_busy (sendOk : Bool) (t : Nat) (st : FocuserState) :
    (MoveAbsFocuser true t).result = IPState.Busy ∧
    (MoveAbsFocuser true st.focusAbsPosValue.toNat).result = IPState.Busy ∧
    (MoveAbsFocuser false t).result = IPState.Alert ∧
    (MoveAbsFocuser sendOk t).result ≠ IPState.Ok := by
  refine ⟨rfl, rfl, rfl, ?_⟩
  cases sendOk <;> simp [MoveAbsFocuser]

end CelestronSCT
